import Mathlib

/-!
Shallow embedding of the external-federation subsystem of the repository
(Hono route `externalRoute` in the server package: `/generate-token`,
`/exchange-token`, `/authorize`, `/authorize-business`, `/verify`,
`/remove-member`, plus the helpers `sendApiTokenToPms` and
`createExternalTeamApiToken`).

Modelling conventions:
* JavaScript strings are Lean `String`s; `s.toLowerCase()` is a per-character
  ASCII lowering (`Char.toLower`), which agrees with JS on the ASCII range.
* `process.env.X` is a `String` where the empty string stands for an unset or
  empty variable (both are falsy under the JS `!x` checks the code uses).
* The in-memory `Map` token store is an association list; `Map.get` is
  `find?`, `Map.delete` removes the key, `Map.set` inserts/overwrites.
* `crypto.randomBytes(n)` is an explicit `List Nat` parameter (each entry one
  byte); `.toString('hex')` is `bytesToHex`.
* `Date.now()` is an explicit `Nat` parameter (milliseconds).
* Prisma rows are Lean structures in an explicit `DB` state; `findUnique` /
  `findFirst` are `find?`, `create` appends, `deleteMany` filters.
* Collaborators that live outside this repository's federation source
  (`createOrganisation`, `createTeam`, `onAuthorize`, `hashString`, the HMAC
  primitive, network delivery) are abstract function parameters: the theorems
  below are about the federation code's own control flow and state changes,
  never about those collaborators' internals.
-/

/-- Partner-supplied role, the `'ADMIN' | 'MANAGER' | 'MEMBER'` union in the
route bodies.  `OrganisationMemberRole` is identified with the same type: the
route's role table maps each name to the identically-named internal value. -/
inductive Role where
  | ADMIN
  | MANAGER
  | MEMBER
deriving DecidableEq, Repr

/-- The value stored in `authTokenStore` for a pending token. -/
structure TokenData where
  email : String
  name : String
  businessId : String
  businessName : String
  role : Role
  createdAt : Nat
deriving DecidableEq, Repr

/-- The in-memory `authTokenStore : Map<string, TokenData>`. -/
abbrev Store := List (String × TokenData)

/-- `TOKEN_EXPIRY_MS = 5 * 60 * 1000`. -/
def TOKEN_EXPIRY_MS : Nat := 5 * 60 * 1000

/-- `authTokenStore.get(token)`. -/
def storeGet (s : Store) (t : String) : Option TokenData :=
  (s.find? (fun p => p.1 == t)).map (·.2)

/-- `authTokenStore.delete(token)`. -/
def storeDelete (s : Store) (t : String) : Store :=
  s.filter (fun p => p.1 != t)

/-- `authTokenStore.set(token, data)`. -/
def storeSet (s : Store) (t : String) (d : TokenData) : Store :=
  (t, d) :: storeDelete s t

/-- Hex digit used by `Buffer.toString('hex')`: lowercase. -/
def hexDigit (n : Nat) : Char :=
  if n < 10 then Char.ofNat (48 + n) else Char.ofNat (87 + n)

/-- One byte rendered as two lowercase hex digits. -/
def byteToHex (b : Nat) : List Char :=
  [hexDigit (b / 16), hexDigit (b % 16)]

/-- `Buffer.from(bytes).toString('hex')`. -/
def bytesToHex (bs : List Nat) : String :=
  String.mk ((bs.map byteToHex).flatten)

/-- The per-character action of the regex replace
`.replace(/[^a-z0-9-]/g, '-')`. -/
def jsReplaceNonSlug (c : Char) : Char :=
  if ('a' ≤ c ∧ c ≤ 'z') ∨ ('0' ≤ c ∧ c ≤ '9') ∨ c = '-' then c else '-'

/-- Characters the slug alphabet `[a-z0-9-]` admits. -/
def isSlugChar (c : Char) : Prop :=
  ('a' ≤ c ∧ c ≤ 'z') ∨ ('0' ≤ c ∧ c ≤ '9') ∨ c = '-'

instance (c : Char) : Decidable (isSlugChar c) := by
  unfold isSlugChar; infer_instance

/-- The slug computation, written once:
`` `yc-${businessId}`.toLowerCase().replace(/[^a-z0-9-]/g, '-') ``. -/
def deterministicSlug (businessId : String) : String :=
  String.mk ((("yc-" ++ businessId).data.map Char.toLower).map jsReplaceNonSlug)

/-- The `orgUrl` expression exactly as it appears in the `/exchange-token`
handler. -/
def orgUrlExchangeToken (businessId : String) : String :=
  String.mk ((("yc-" ++ businessId).data.map Char.toLower).map jsReplaceNonSlug)

/-- The `orgUrl` expression exactly as it appears in the `/authorize-business`
handler. -/
def orgUrlAuthorizeBusiness (businessId : String) : String :=
  String.mk ((("yc-" ++ businessId).data.map Char.toLower).map jsReplaceNonSlug)

/-- The `orgUrl` expression exactly as it appears in the `/remove-member`
handler. -/
def orgUrlRemoveMember (businessId : String) : String :=
  String.mk ((("yc-" ++ businessId).data.map Char.toLower).map jsReplaceNonSlug)

/-- Response of `/generate-token`: either a structured error body
`(message, statusCode)` or the success body with its token and redirect URL
(`success: true` is the `ok` constructor). -/
inductive GenResp where
  | err (message : String) (statusCode : Nat)
  | ok (token : String) (redirectUrl : String)
deriving DecidableEq, Repr

/-- The `/generate-token` handler.  `env` is `process.env.EXTERNAL_AUTH_SECRET`
("" = unset), `randomBytes` models `crypto.randomBytes(32)`, `now` is
`Date.now()`; `role` is the optional body field, defaulted to `MEMBER` at
destructuring. -/
def generateToken (env : String) (store : Store)
    (email name businessId businessName : String) (role : Option Role)
    (externalSecret : String) (randomBytes : List Nat) (now : Nat) :
    GenResp × Store :=
  if env = "" then
    (.err "External authentication is not configured" 500, store)
  else if externalSecret ≠ env then
    (.err "Invalid external secret" 401, store)
  else if email = "" ∨ name = "" ∨ businessId = "" ∨ businessName = "" then
    (.err "email, name, businessId, and businessName are required" 400, store)
  else
    let token := bytesToHex randomBytes
    (.ok token ("/auth/external?token=" ++ token),
      storeSet store token
        ⟨email, name, businessId, businessName, role.getD .MEMBER, now⟩)

/-- Result of the token-store portion of `/exchange-token` (through the expiry
check): a structured error body or the recovered pending claim. -/
inductive ExchangeResult where
  | err (message : String) (statusCode : Nat)
  | ok (data : TokenData)
deriving DecidableEq, Repr

/-- The token-store portion of `/exchange-token`: missing-token check, `get`,
unconditional `delete`, absence check, then the expiry check. -/
def exchangeToken (store : Store) (token : String) (now : Nat) :
    ExchangeResult × Store :=
  if token = "" then (.err "Token is required" 400, store)
  else
    let tokenData := storeGet store token
    let store' := storeDelete store token
    match tokenData with
    | none => (.err "Invalid or expired token" 401, store')
    | some d =>
      if now - d.createdAt > TOKEN_EXPIRY_MS then
        (.err "Token has expired" 401, store')
      else
        (.ok d, store')

/-- `IdentityProvider` values this subsystem distinguishes: federation creates
users with `EXTERNAL`, anything else is collapsed to `OTHER`. -/
inductive IdentityProviderKind where
  | EXTERNAL
  | OTHER
deriving DecidableEq, Repr

/-- A `User` row as this subsystem reads and writes it. -/
structure User where
  id : Nat
  email : String
  name : String
  identityProvider : IdentityProviderKind
  emailVerified : Option Nat
deriving DecidableEq, Repr

/-- An `OrganisationGroup` row (the role groups attached to an organisation). -/
structure OrganisationGroup where
  id : String
  organisationRole : Role
deriving DecidableEq, Repr

/-- A `Team` row as returned in the handlers' `teams take 1` include. -/
structure Team where
  id : Nat
  name : String
  url : String
deriving DecidableEq, Repr

/-- An `Organisation` row together with the `groups` and oldest-first `teams`
include the handlers request. -/
structure Organisation where
  id : String
  name : String
  url : String
  groups : List OrganisationGroup
  teams : List Team
deriving DecidableEq, Repr

/-- An `OrganisationMember` row. -/
structure Member where
  id : String
  userId : Nat
  organisationId : String
deriving DecidableEq, Repr

/-- An `OrganisationGroupMember` row (created nested under the member). -/
structure GroupMember where
  id : String
  groupId : String
deriving DecidableEq, Repr

/-- An `ApiToken` row as `createExternalTeamApiToken` reads and writes it. -/
structure ApiToken where
  name : String
  token : String
  userId : Nat
  teamId : Nat
deriving DecidableEq, Repr

/-- The slice of the relational store the federation routes touch. -/
structure DB where
  users : List User
  organisations : List Organisation
  members : List Member
  groupMembers : List GroupMember
  apiTokens : List ApiToken
deriving DecidableEq, Repr

/-- Per-character ASCII lowering of a string, the model of
`email.toLowerCase()`. -/
def toLowerStr (s : String) : String :=
  String.mk (s.data.map Char.toLower)

/-- `prisma.user.findUnique({ where: { email: email.toLowerCase() } })`. -/
def findUserByEmail (users : List User) (email : String) : Option User :=
  users.find? (fun u => u.email == toLowerStr email)

/-- `prisma.organisationMember.findFirst` on `(userId, organisationId)`,
reduced to presence. -/
def hasMembership (ms : List Member) (userId : Nat) (organisationId : String) :
    Bool :=
  (ms.find? (fun m => m.userId == userId && m.organisationId == organisationId)).isSome

/-- `organisation.groups.find((g) => g.organisationRole === organisationRole)`. -/
def findRoleGroup (groups : List OrganisationGroup) (r : Role) :
    Option OrganisationGroup :=
  groups.find? (fun g => decide (g.organisationRole = r))

/-- The membership branch of `/exchange-token` and `/authorize-business` taken
when the organisation already exists (lines 660-691 / 306-337): look up an
existing member; if none, look up the role group for the requested role; if
found, create the member with its nested group member; if the role group is
missing, fall through without writing and without error.  `memberId` and
`groupMemberId` model the two `generateDatabaseId` calls. -/
def membershipStep (db : DB) (userId : Nat) (org : Organisation) (r : Role)
    (memberId groupMemberId : String) : DB :=
  match db.members.find?
      (fun m => m.userId == userId && m.organisationId == org.id) with
  | some _ => db
  | none =>
    match findRoleGroup org.groups r with
    | none => db
    | some g =>
      { db with
        members := db.members ++ [⟨memberId, userId, org.id⟩],
        groupMembers := db.groupMembers ++ [⟨groupMemberId, g.id⟩] }

/-- `createExternalTeamApiToken`: derive the deterministic name, check for an
existing credential on the team, and either return `null` untouched or insert
exactly one hashed credential and return the raw token.  `randomBytes` models
`crypto.randomBytes(12)` and `hashString` the imported hash helper. -/
def createExternalTeamApiToken (tokens : List ApiToken) (teamId : Nat)
    (organisationId : String) (userId : Nat) (randomBytes : List Nat)
    (hashString : String → String) : Option String × List ApiToken :=
  let tokenName := "yc-external-" ++ organisationId
  match tokens.find? (fun t => t.teamId == teamId && t.name == tokenName) with
  | some _ => (none, tokens)
  | none =>
    let rawToken := "api_" ++ bytesToHex randomBytes
    (some rawToken,
      tokens ++ [⟨tokenName, hashString rawToken, userId, teamId⟩])

/-- The guard `if (apiToken) { await sendApiTokenToPms(...) }` around the
partner webhook in both provisioning handlers (the raw token is
`api_`-prefixed, hence never the empty, falsy string). -/
def apiTokenTriggersWebhook (apiToken : Option String) : Bool :=
  apiToken.isSome

/-- The outbound HTTP request `sendApiTokenToPms` would issue. -/
structure WebhookRequest where
  url : String
  headerName : String
  signature : String
  body : String
deriving DecidableEq, Repr

/-- A JSON string literal with the escaping relevant to the id/token payloads
(backslash and double quote). -/
def jsonStr (s : String) : String :=
  "\"" ++ String.mk (s.data.flatMap
    (fun c => if c = '"' then ['\\', '"']
              else if c = '\\' then ['\\', '\\']
              else [c])) ++ "\""

/-- `JSON.stringify({ businessId, apiToken })`. -/
def pmsPayload (businessId apiToken : String) : String :=
  "\x7b\"businessId\":" ++ jsonStr businessId ++
    ",\"apiToken\":" ++ jsonStr apiToken ++ "\x7d"

/-- `sendApiTokenToPms`: skip entirely when the webhook URL or secret is not
configured; otherwise serialize the payload, sign the exact serialized body,
and issue the request described by the result.  `hmacSha256Hex secret body`
models `crypto.createHmac('sha256', secret).update(body).digest('hex')`, an
external crypto primitive.  `none` means no request is sent at all. -/
def sendApiTokenToPms (webhookUrl webhookSecret : String)
    (hmacSha256Hex : String → String → String)
    (businessId apiToken : String) : Option WebhookRequest :=
  if webhookUrl = "" ∨ webhookSecret = "" then none
  else
    let payload := pmsPayload businessId apiToken
    some
      { url := webhookUrl ++ "/v1/documenso/pms/store-api-key/" ++ businessId,
        headerName := "x-documenso-signature",
        signature := hmacSha256Hex webhookSecret payload,
        body := payload }

/-- What the provisioning `try` block of `/exchange-token` and
`/authorize-business` produces on success, as consumed by the response
builder. -/
structure ProvisionOutcome where
  userId : Nat
  userEmail : String
  userName : String
  orgId : String
  orgName : String
  orgUrl : String
  team : Option Team
deriving DecidableEq, Repr

/-- Full response of `/exchange-token` and `/authorize-business`. -/
inductive FullResp where
  | err (message : String) (statusCode : Nat)
  | ok (outcome : ProvisionOutcome) (redirectUrl : String)
      (documentsUrl : Option String)
deriving DecidableEq, Repr

/-- The success response builder shared by the two provisioning handlers:
team-scoped redirect when a team exists, organisation redirect otherwise. -/
def responseFor (p : ProvisionOutcome) : FullResp :=
  match p.team with
  | some t => .ok p ("/t/" ++ t.url) (some ("/t/" ++ t.url ++ "/documents"))
  | none => .ok p ("/o/" ++ p.orgUrl) none

/-- The `/exchange-token` handler: missing-token check, token-store get +
unconditional delete, absence and expiry checks, then the provisioning `try`
block.  `provision` abstracts the try-block body (identity resolution, tenant
provisioning, session issue, credential mint): `.error msg` models a thrown
exception caught by the handler's `catch`, which becomes a 500 with the
message passed through.  `delivered` is the partner-webhook delivery outcome,
which the code only logs. -/
def exchangeTokenFull (store : Store) (token : String) (now : Nat)
    (provision : TokenData → Except String ProvisionOutcome)
    (_delivered : Bool) : FullResp × Store :=
  match exchangeToken store token now with
  | (.err m s, store') => (.err m s, store')
  | (.ok d, store') =>
    match provision d with
    | .error msg => (.err msg 500, store')
    | .ok p => (responseFor p, store')

/-- The `/authorize-business` handler: secret gate, field validation, role
defaulting, then the provisioning `try` block (abstracted as in
`exchangeTokenFull`; this route reads no token store). -/
def authorizeBusiness (env : String)
    (email name businessId businessName : String) (role : Option Role)
    (externalSecret : String)
    (provision : Role → Except String ProvisionOutcome)
    (_delivered : Bool) : FullResp :=
  if env = "" then .err "External authentication is not configured" 500
  else if externalSecret ≠ env then .err "Invalid external secret" 401
  else if email = "" ∨ name = "" ∨ businessId = "" ∨ businessName = "" then
    .err "email, name, businessId, and businessName are required" 400
  else
    match provision (role.getD .MEMBER) with
    | .error msg => .err msg 500
    | .ok p => responseFor p

/-- Response of `/authorize`. -/
inductive AuthResp where
  | err (message : String) (statusCode : Nat)
  | ok (id : Nat) (email : String) (name : String)
deriving DecidableEq, Repr

/-- The `/authorize` handler: secret gate, field validation, then
find-or-create of the user by canonical email with name reconciliation
(`onAuthorize` session issuance is an external collaborator and changes no
state modelled here). -/
def authorize (env : String) (db : DB) (email name externalSecret : String)
    (newUserId : Nat) (now : Nat) : AuthResp × DB :=
  if env = "" then
    (.err "External authentication is not configured" 500, db)
  else if externalSecret ≠ env then
    (.err "Invalid external secret" 401, db)
  else if email = "" ∨ name = "" then
    (.err "Email and name are required" 400, db)
  else
    match findUserByEmail db.users email with
    | none =>
      let u : User := ⟨newUserId, toLowerStr email, name, .EXTERNAL, some now⟩
      (.ok u.id u.email u.name, { db with users := db.users ++ [u] })
    | some u =>
      if name ≠ u.name then
        let u' : User := { u with name := name }
        (.ok u'.id u'.email u'.name,
          { db with users := db.users.map (fun v => if v.id == u.id then u' else v) })
      else
        (.ok u.id u.email u.name, db)

/-- Response of `/verify` (the per-organisation listing of the success body is
a pure read-only projection and is reduced to the user's identity here). -/
inductive VerifyResp where
  | err (message : String) (statusCode : Nat)
  | ok (userFound : Bool) (userId : Option Nat)
deriving DecidableEq, Repr

/-- The `/verify` handler: combined unconfigured-or-mismatch gate returning
401 `Unauthorized`, then a read-only user lookup. -/
def verify (env : String) (db : DB) (email externalSecret : String) :
    VerifyResp :=
  if env = "" ∨ externalSecret ≠ env then .err "Unauthorized" 401
  else
    match findUserByEmail db.users email with
    | none => .ok false none
    | some u => .ok true (some u.id)

/-- Response of `/remove-member` (`ok` carries `success: true` plus the
message). -/
inductive RemoveResp where
  | err (message : String) (statusCode : Nat)
  | ok (message : String)
deriving DecidableEq, Repr

/-- The `/remove-member` handler: combined unconfigured-or-mismatch gate
returning 401 `Unauthorized`, slug derivation, user lookup (success no-op when
absent), organisation lookup (success no-op when absent), then `deleteMany` of
the pair's memberships. -/
def removeMember (env : String) (db : DB)
    (email businessId externalSecret : String) : RemoveResp × DB :=
  if env = "" ∨ externalSecret ≠ env then (.err "Unauthorized" 401, db)
  else
    match findUserByEmail db.users email with
    | none => (.ok "User not found", db)
    | some u =>
      match db.organisations.find? (fun o => o.url == orgUrlRemoveMember businessId) with
      | none => (.ok "Organisation not found", db)
      | some org =>
        (.ok "Member removed from organisation",
          { db with
            members := db.members.filter
              (fun m => !(m.userId == u.id && m.organisationId == org.id)) })

/-! ## Shared lemmas -/

lemma isSlugChar_jsReplaceNonSlug (c : Char) : isSlugChar (jsReplaceNonSlug c) := by
  unfold jsReplaceNonSlug isSlugChar
  split
  · assumption
  · exact Or.inr (Or.inr rfl)

lemma data_append_yc (b : String) :
    ("yc-" ++ b).data = 'y' :: 'c' :: '-' :: b.data := rfl

/-- Claim C2: the slug derivation is a pure function of the businessId: it is
lowercase of `yc-` prepended to the businessId with every character outside
`[a-z0-9-]` replaced by `-`, it produces only characters of that alphabet, it
starts with the `yc-` prefix, and the three endpoints that derive an
organisation slug (`/exchange-token`, `/authorize-business`,
`/remove-member`) all compute the identical value (determinism is inherent:
the model is a pure Lean function evaluated on its argument alone). -/
theorem c2_slug_pure_uniform_alphabet (b : String) :
    deterministicSlug b =
      String.mk ((("yc-" ++ b).data.map Char.toLower).map jsReplaceNonSlug) ∧
    (∀ c ∈ (deterministicSlug b).data, isSlugChar c) ∧
    (deterministicSlug b).data.take 3 = ['y', 'c', '-'] ∧
    orgUrlExchangeToken b = deterministicSlug b ∧
    orgUrlAuthorizeBusiness b = deterministicSlug b ∧
    orgUrlRemoveMember b = deterministicSlug b := by
  refine ⟨rfl, ?_, ?_, rfl, rfl, rfl⟩
  · intro c hc
    simp only [deterministicSlug, List.mem_map] at hc
    obtain ⟨a, -, rfl⟩ := hc
    exact isSlugChar_jsReplaceNonSlug a
  · simp [deterministicSlug, data_append_yc]
    decide

lemma storeGet_storeSet_self (s : Store) (t : String) (d : TokenData) :
    storeGet (storeSet s t d) t = some d := by
  simp [storeGet, storeSet, List.find?_cons_of_pos]

lemma storeGet_storeDelete_self (s : Store) (t : String) :
    storeGet (storeDelete s t) t = none := by
  simp only [storeGet, storeDelete, Option.map_eq_none', List.find?_eq_none,
    List.mem_filter]
  rintro ⟨x, y⟩ ⟨-, hne⟩
  simpa using hne

lemma bytesToHex_ne_empty {bs : List Nat} (h : bs ≠ []) : bytesToHex bs ≠ "" := by
  cases bs with
  | nil => exact absurd rfl h
  | cons b tl =>
    simp [bytesToHex, byteToHex, String.ext_iff]

/-- Claim C4 counterexample: a stale-but-present token and an absent token do
NOT produce the same response body.  With the 5-minute TTL elapsed, the
stale-but-present entry yields 401 `Token has expired` while the absent token
yields 401 `Invalid or expired token`: same status, different body. -/
theorem c4_stale_vs_absent_counterexample :
    (exchangeToken
        [("t", (⟨"a@b.com", "A", "biz_1", "Biz", Role.MEMBER, 0⟩ : TokenData))]
        "t" 300001).1
      = ExchangeResult.err "Token has expired" 401 ∧
    (exchangeToken ([] : Store) "t" 300001).1
      = ExchangeResult.err "Invalid or expired token" 401 ∧
    (exchangeToken
        [("t", (⟨"a@b.com", "A", "biz_1", "Biz", Role.MEMBER, 0⟩ : TokenData))]
        "t" 300001).1
      ≠ (exchangeToken ([] : Store) "t" 300001).1 := by
  decide

/-- Claim C4 as amended: a token still present in the store whose age exceeds
the 5-minute TTL fails with the same 401 status as an absent token and is
removed from the store by the same unconditional delete, but the response
message differs: `Token has expired` for the stale entry versus
`Invalid or expired token` for the absent one. -/
theorem c4_stale_token_same_status (store : Store) (token : String) (now : Nat)
    (d : TokenData) (ht : token ≠ "") (hget : storeGet store token = some d)
    (hstale : now - d.createdAt > TOKEN_EXPIRY_MS) :
    (exchangeToken store token now).1 = ExchangeResult.err "Token has expired" 401 ∧
    (exchangeToken store token now).2 = storeDelete store token ∧
    storeGet (exchangeToken store token now).2 token = none ∧
    ∀ s₂ : Store, storeGet s₂ token = none →
      (exchangeToken s₂ token now).1
        = ExchangeResult.err "Invalid or expired token" 401 := by
  refine ⟨?_, ?_, ?_, ?_⟩
  · simp [exchangeToken, ht, hget, hstale]
  · simp [exchangeToken, ht, hget, hstale]
  · simp [exchangeToken, ht, hget, hstale, storeGet_storeDelete_self]
  · intro s₂ h₂
    simp [exchangeToken, ht, h₂]

/-- Witness for `c4_stale_token_same_status` at a concrete stale entry. -/
theorem c4_stale_token_same_status_witness :
    (exchangeToken
        [("t", (⟨"a@b.com", "A", "biz_1", "Biz", Role.MEMBER, 0⟩ : TokenData))]
        "t" 300001).1
      = ExchangeResult.err "Token has expired" 401 :=
  (c4_stale_token_same_status
    [("t", (⟨"a@b.com", "A", "biz_1", "Biz", Role.MEMBER, 0⟩ : TokenData))]
    "t" 300001 ⟨"a@b.com", "A", "biz_1", "Biz", Role.MEMBER, 0⟩
    (by decide) (by decide) (by decide)).1

/-- Claim C1: a pending claim stored by `/generate-token` is exchanged
successfully exactly once.  Under a configured secret, matching supplied
secret, all four required fields present, and an exchange within the 5-minute
window, `/generate-token` responds with the issued token and its redirect URL,
the first `/exchange-token` call returns the stored claim (email, name,
businessId, businessName, role — the role defaulted to `MEMBER` when absent),
and any later `/exchange-token` call with the same token, at any time, fails
401 `Invalid or expired token`: the token is permanently removed. -/
theorem c1_issue_then_exchange_exactly_once (env : String) (store : Store)
    (email name businessId businessName secret : String) (role : Option Role)
    (bytes : List Nat) (now now₂ : Nat)
    (henv : env ≠ "") (hsec : secret = env)
    (he : email ≠ "") (hn : name ≠ "") (hb : businessId ≠ "")
    (hbn : businessName ≠ "") (hbytes : bytes ≠ [])
    (hfresh : now₂ - now ≤ TOKEN_EXPIRY_MS) :
    (generateToken env store email name businessId businessName role secret
        bytes now).1
      = GenResp.ok (bytesToHex bytes)
          ("/auth/external?token=" ++ bytesToHex bytes) ∧
    (exchangeToken
        (generateToken env store email name businessId businessName role secret
          bytes now).2
        (bytesToHex bytes) now₂).1
      = ExchangeResult.ok
          ⟨email, name, businessId, businessName, role.getD Role.MEMBER, now⟩ ∧
    ∀ now₃,
      (exchangeToken
          (exchangeToken
            (generateToken env store email name businessId businessName role
              secret bytes now).2
            (bytesToHex bytes) now₂).2
          (bytesToHex bytes) now₃).1
        = ExchangeResult.err "Invalid or expired token" 401 := by
  have htok : bytesToHex bytes ≠ "" := bytesToHex_ne_empty hbytes
  have hnotexp : ¬ (now₂ - now > TOKEN_EXPIRY_MS) := by omega
  have hgen :
      generateToken env store email name businessId businessName role secret
          bytes now
        = (GenResp.ok (bytesToHex bytes)
            ("/auth/external?token=" ++ bytesToHex bytes),
           storeSet store (bytesToHex bytes)
             ⟨email, name, businessId, businessName, role.getD Role.MEMBER,
              now⟩) := by
    simp [generateToken, henv, hsec, he, hn, hb, hbn]
  refine ⟨by rw [hgen], ?_, ?_⟩
  · rw [hgen]
    simp [exchangeToken, htok, storeGet_storeSet_self, hnotexp]
  · intro now₃
    rw [hgen]
    simp [exchangeToken, htok, storeGet_storeSet_self, hnotexp,
      storeGet_storeDelete_self]

/-- Witness for `c1_issue_then_exchange_exactly_once` at a concrete claim,
secret and one-byte token. -/
theorem c1_issue_then_exchange_exactly_once_witness :
    (exchangeToken
        (generateToken "s" [] "a@b.com" "A" "biz_1" "Biz" (some Role.ADMIN) "s"
          [0] 10).2
        (bytesToHex [0]) 20).1
      = ExchangeResult.ok ⟨"a@b.com", "A", "biz_1", "Biz", Role.ADMIN, 10⟩ :=
  (c1_issue_then_exchange_exactly_once "s" [] "a@b.com" "A" "biz_1" "Biz" "s"
    (some Role.ADMIN) [0] 10 20 (by decide) rfl (by decide) (by decide)
    (by decide) (by decide) (by decide) (by decide)).2.1

/-- Characters of a lowercase hexadecimal rendering. -/
def isLowerHexChar (c : Char) : Prop :=
  ('0' ≤ c ∧ c ≤ '9') ∨ ('a' ≤ c ∧ c ≤ 'f')

instance (c : Char) : Decidable (isLowerHexChar c) := by
  unfold isLowerHexChar; infer_instance

lemma hexDigit_isLowerHex {n : Nat} (h : n < 16) : isLowerHexChar (hexDigit n) := by
  interval_cases n <;> decide

lemma length_bytesToHex (bs : List Nat) :
    (bytesToHex bs).length = 2 * bs.length := by
  induction bs with
  | nil => rfl
  | cons b tl ih =>
    simp [bytesToHex, byteToHex, String.length] at ih ⊢
    omega

lemma mem_bytesToHex_isLowerHex {bs : List Nat} (h : ∀ b ∈ bs, b < 256) :
    ∀ c ∈ (bytesToHex bs).data, isLowerHexChar c := by
  intro c hc
  simp only [bytesToHex, List.mem_flatten, List.mem_map] at hc
  obtain ⟨l, ⟨b, hb, rfl⟩, hcl⟩ := hc
  simp only [byteToHex, List.mem_cons, List.mem_singleton] at hcl
  rcases hcl with rfl | rfl | h'
  · exact hexDigit_isLowerHex (by have := h b hb; omega)
  · exact hexDigit_isLowerHex (by have := h b hb; omega)
  · cases h'

/-- Claim C8: a `/generate-token` request with a valid secret and all four
required fields present responds with `success: true`, the hex rendering of
the 32 random bytes as token (64 lowercase hexadecimal characters, no
separators), and `redirectUrl` exactly `/auth/external?token=` followed by
that token. -/
theorem c8_generate_token_response_shape (env : String) (store : Store)
    (email name businessId businessName secret : String) (role : Option Role)
    (bytes : List Nat) (now : Nat)
    (henv : env ≠ "") (hsec : secret = env)
    (he : email ≠ "") (hn : name ≠ "") (hb : businessId ≠ "")
    (hbn : businessName ≠ "") (hlen : bytes.length = 32)
    (hbytes : ∀ b ∈ bytes, b < 256) :
    (generateToken env store email name businessId businessName role secret
        bytes now).1
      = GenResp.ok (bytesToHex bytes)
          ("/auth/external?token=" ++ bytesToHex bytes) ∧
    (bytesToHex bytes).length = 64 ∧
    (∀ c ∈ (bytesToHex bytes).data, isLowerHexChar c) := by
  refine ⟨?_, ?_, mem_bytesToHex_isLowerHex hbytes⟩
  · simp [generateToken, henv, hsec, he, hn, hb, hbn]
  · rw [length_bytesToHex, hlen]

/-- Witness for `c8_generate_token_response_shape` on 32 zero bytes. -/
theorem c8_generate_token_response_shape_witness :
    (generateToken "s" [] "a@b.com" "A" "biz_1" "Biz" none "s"
        (List.replicate 32 0) 0).1
      = GenResp.ok (bytesToHex (List.replicate 32 0))
          ("/auth/external?token=" ++ bytesToHex (List.replicate 32 0)) ∧
    (bytesToHex (List.replicate 32 0)).length = 64 ∧
    (∀ c ∈ (bytesToHex (List.replicate 32 0)).data, isLowerHexChar c) :=
  c8_generate_token_response_shape "s" [] "a@b.com" "A" "biz_1" "Biz" "s" none
    (List.replicate 32 0) 0 (by decide) rfl (by decide) (by decide) (by decide)
    (by decide) (by decide) (by decide)

/-- Claim C10: `/exchange-token` deletes the pending claim from the token
store before provisioning begins, so the token is consumed even when the
provisioning step throws.  If the store holds a fresh claim for the token and
the try-block body fails with `msg`, the call returns 500 with that message,
the token is gone from the resulting store, and every later `/exchange-token`
call with the same token — at any time, with any provisioning behaviour —
fails 401 `Invalid or expired token`. -/
theorem c10_token_consumed_on_provisioning_failure (store : Store)
    (token : String) (now : Nat) (d : TokenData) (msg : String)
    (provision : TokenData → Except String ProvisionOutcome) (delivered : Bool)
    (ht : token ≠ "") (hget : storeGet store token = some d)
    (hfresh : ¬ (now - d.createdAt > TOKEN_EXPIRY_MS))
    (hthrow : provision d = .error msg) :
    (exchangeTokenFull store token now provision delivered).1
      = FullResp.err msg 500 ∧
    storeGet (exchangeTokenFull store token now provision delivered).2 token
      = none ∧
    ∀ (now₂ : Nat) (provision₂ : TokenData → Except String ProvisionOutcome)
      (delivered₂ : Bool),
      (exchangeTokenFull
          (exchangeTokenFull store token now provision delivered).2 token now₂
          provision₂ delivered₂).1
        = FullResp.err "Invalid or expired token" 401 := by
  have hex : exchangeToken store token now = (.ok d, storeDelete store token) := by
    simp [exchangeToken, ht, hget, hfresh]
  have hfull : exchangeTokenFull store token now provision delivered
      = (FullResp.err msg 500, storeDelete store token) := by
    simp [exchangeTokenFull, hex, hthrow]
  refine ⟨by rw [hfull], ?_, ?_⟩
  · rw [hfull]
    exact storeGet_storeDelete_self store token
  · intro now₂ provision₂ delivered₂
    rw [hfull]
    simp [exchangeTokenFull, exchangeToken, ht, storeGet_storeDelete_self]

/-- Witness for `c10_token_consumed_on_provisioning_failure` with a concrete
fresh claim and a throwing provisioning step. -/
theorem c10_token_consumed_on_provisioning_failure_witness :
    (exchangeTokenFull
        [("t", (⟨"a@b.com", "A", "biz_1", "Biz", Role.MEMBER, 0⟩ : TokenData))]
        "t" 0 (fun _ => Except.error "boom") true).1
      = FullResp.err "boom" 500 :=
  (c10_token_consumed_on_provisioning_failure
    [("t", (⟨"a@b.com", "A", "biz_1", "Biz", Role.MEMBER, 0⟩ : TokenData))]
    "t" 0 ⟨"a@b.com", "A", "biz_1", "Biz", Role.MEMBER, 0⟩ "boom"
    (fun _ => Except.error "boom") true (by decide) (by decide) (by decide)
    rfl).1

/-- Claim C3 counterexample: with no expected secret configured, `/verify` and
`/remove-member` do not fail with the 500 Unconfigured error the claim
asserts for every federation-facing operation; they return 401 `Unauthorized`,
the same error class as a bad secret. -/
theorem c3_unconfigured_counterexample :
    verify "" ⟨[], [], [], [], []⟩ "a@b.com" "s"
      = VerifyResp.err "Unauthorized" 401 ∧
    (removeMember "" ⟨[], [], [], [], []⟩ "a@b.com" "biz_1" "s").1
      = RemoveResp.err "Unauthorized" 401 ∧
    verify "" ⟨[], [], [], [], []⟩ "a@b.com" "s"
      ≠ VerifyResp.err "External authentication is not configured" 500 := by
  decide

/-- Claim C3 as amended: every federation-facing operation fails closed,
before any other work and with no state change, when no expected secret is
configured — but only `/generate-token`, `/authorize` and
`/authorize-business` report the 500 `External authentication is not
configured` error; `/verify` and `/remove-member` fold the unconfigured case
into their 401 `Unauthorized` response, the same class as a bad secret. -/
theorem c3_unconfigured_fails_closed :
    (∀ (store : Store) (email name businessId businessName : String)
        (role : Option Role) (secret : String) (bytes : List Nat) (now : Nat),
      generateToken "" store email name businessId businessName role secret
          bytes now
        = (GenResp.err "External authentication is not configured" 500,
           store)) ∧
    (∀ (db : DB) (email name secret : String) (newUserId now : Nat),
      authorize "" db email name secret newUserId now
        = (AuthResp.err "External authentication is not configured" 500, db)) ∧
    (∀ (email name businessId businessName : String) (role : Option Role)
        (secret : String) (provision : Role → Except String ProvisionOutcome)
        (delivered : Bool),
      authorizeBusiness "" email name businessId businessName role secret
          provision delivered
        = FullResp.err "External authentication is not configured" 500) ∧
    (∀ (db : DB) (email secret : String),
      verify "" db email secret = VerifyResp.err "Unauthorized" 401) ∧
    (∀ (db : DB) (email businessId secret : String),
      removeMember "" db email businessId secret
        = (RemoveResp.err "Unauthorized" 401, db)) := by
  refine ⟨?_, ?_, ?_, ?_, ?_⟩
  · intro store email name businessId businessName role secret bytes now
    simp [generateToken]
  · intro db email name secret newUserId now
    simp [authorize]
  · intro email name businessId businessName role secret provision delivered
    simp [authorizeBusiness]
  · intro db email secret
    simp [verify]
  · intro db email businessId secret
    simp [removeMember]

/-- Claim C9: with a valid secret, `/remove-member` is an idempotent no-op on
absent targets: no user for the canonicalised email yields success
`User not found` with the store untouched; a user but no organisation for the
derived slug yields success `Organisation not found` with the store untouched;
and when both exist, all memberships of that (user, organisation) pair are
deleted and nothing else changes. -/
theorem c9_remove_member_idempotent_noop (env : String) (db : DB)
    (email businessId secret : String)
    (henv : env ≠ "") (hsec : secret = env) :
    (findUserByEmail db.users email = none →
      removeMember env db email businessId secret
        = (RemoveResp.ok "User not found", db)) ∧
    (∀ u, findUserByEmail db.users email = some u →
      db.organisations.find?
          (fun o => o.url == orgUrlRemoveMember businessId) = none →
      removeMember env db email businessId secret
        = (RemoveResp.ok "Organisation not found", db)) ∧
    (∀ u org, findUserByEmail db.users email = some u →
      db.organisations.find?
          (fun o => o.url == orgUrlRemoveMember businessId) = some org →
      removeMember env db email businessId secret
        = (RemoveResp.ok "Member removed from organisation",
           { db with
             members := db.members.filter
               (fun m => !(m.userId == u.id && m.organisationId == org.id)) }) ∧
      ∀ m ∈ (removeMember env db email businessId secret).2.members,
        ¬ (m.userId = u.id ∧ m.organisationId = org.id)) := by
  have hgate : ¬ (env = "" ∨ secret ≠ env) := by simp [henv, hsec]
  refine ⟨?_, ?_, ?_⟩
  · intro hu
    simp [removeMember, hgate, hu]
  · intro u hu ho
    simp [removeMember, hgate, hu, ho]
  · intro u org hu ho
    have hrm : removeMember env db email businessId secret
        = (RemoveResp.ok "Member removed from organisation",
           { db with
             members := db.members.filter
               (fun m => !(m.userId == u.id && m.organisationId == org.id)) }) := by
      simp [removeMember, hgate, hu, ho]
    refine ⟨hrm, ?_⟩
    intro m hm
    rw [hrm] at hm
    simp only [List.mem_filter, Bool.not_eq_true', Bool.and_eq_false_iff,
      beq_eq_false_iff_ne, ne_eq] at hm
    rcases hm.2 with h | h
    · exact fun hc => h hc.1
    · exact fun hc => h hc.2

/-- Witness for `c9_remove_member_idempotent_noop`: a store with one user, one
matching organisation and one membership of the pair ends with the membership
deleted. -/
theorem c9_remove_member_idempotent_noop_witness :
    removeMember "s"
        ⟨[⟨1, "a@b.com", "A", IdentityProviderKind.EXTERNAL, none⟩],
         [⟨"org1", "Biz", "yc-biz-1", [], []⟩],
         [⟨"m1", 1, "org1"⟩], [], []⟩
        "a@b.com" "biz_1" "s"
      = (RemoveResp.ok "Member removed from organisation",
         ⟨[⟨1, "a@b.com", "A", IdentityProviderKind.EXTERNAL, none⟩],
          [⟨"org1", "Biz", "yc-biz-1", [], []⟩], [], [], []⟩) := by
  have h := ((c9_remove_member_idempotent_noop "s"
      ⟨[⟨1, "a@b.com", "A", IdentityProviderKind.EXTERNAL, none⟩],
       [⟨"org1", "Biz", "yc-biz-1", [], []⟩],
       [⟨"m1", 1, "org1"⟩], [], []⟩
      "a@b.com" "biz_1" "s" (by decide) rfl).2.2
    ⟨1, "a@b.com", "A", IdentityProviderKind.EXTERNAL, none⟩
    ⟨"org1", "Biz", "yc-biz-1", [], []⟩ (by decide) (by decide)).1
  rw [h]
  decide

/-- At most one `OrganisationMember` row per (userId, organisationId) pair. -/
def atMostOneMembership (ms : List Member) : Prop :=
  List.Pairwise
    (fun a b => ¬ (a.userId = b.userId ∧ a.organisationId = b.organisationId))
    ms

/-- Claim C5: when the organisation for the derived slug already exists, the
membership branch is idempotent and failure-free: an existing membership for
the (user, organisation) pair makes the branch a no-op (duplicates are never
created and never an error); with no existing membership, a member (with its
group member) is created exactly when a role group matching the requested role
exists; a missing role group silently skips creation, leaving the store
untouched (the branch is a total function — it cannot fail the call); and the
at-most-one-membership-per-pair invariant is preserved. -/
theorem c5_membership_branch_idempotent (db : DB) (userId : Nat)
    (org : Organisation) (r : Role) (memberId groupMemberId : String) :
    (hasMembership db.members userId org.id = true →
      membershipStep db userId org r memberId groupMemberId = db) ∧
    (hasMembership db.members userId org.id = false →
      ∀ g, findRoleGroup org.groups r = some g →
        membershipStep db userId org r memberId groupMemberId
          = { db with
              members := db.members ++ [⟨memberId, userId, org.id⟩],
              groupMembers := db.groupMembers ++ [⟨groupMemberId, g.id⟩] }) ∧
    (hasMembership db.members userId org.id = false →
      findRoleGroup org.groups r = none →
      membershipStep db userId org r memberId groupMemberId = db) ∧
    (atMostOneMembership db.members →
      atMostOneMembership
        (membershipStep db userId org r memberId groupMemberId).members) := by
  refine ⟨?_, ?_, ?_, ?_⟩
  · intro hmem
    rcases hfind : db.members.find?
        (fun m => m.userId == userId && m.organisationId == org.id) with - | m
    · rw [hasMembership, hfind] at hmem
      cases hmem
    · simp [membershipStep, hfind]
  · intro hmem g hg
    rcases hfind : db.members.find?
        (fun m => m.userId == userId && m.organisationId == org.id) with - | m
    · simp [membershipStep, hfind, hg]
    · rw [hasMembership, hfind] at hmem
      cases hmem
  · intro hmem hg
    rcases hfind : db.members.find?
        (fun m => m.userId == userId && m.organisationId == org.id) with - | m
    · simp [membershipStep, hfind, hg]
    · rw [hasMembership, hfind] at hmem
      cases hmem
  · intro hinv
    rcases hfind : db.members.find?
        (fun m => m.userId == userId && m.organisationId == org.id) with - | m
    · rcases hg : findRoleGroup org.groups r with - | g
      · simp [membershipStep, hfind, hg]
        exact hinv
      · simp only [membershipStep, hfind, hg]
        have hnone := List.find?_eq_none.mp hfind
        rw [atMostOneMembership, List.pairwise_append]
        refine ⟨hinv, List.pairwise_singleton _ _, ?_⟩
        intro a ha b hb
        simp only [List.mem_singleton] at hb
        subst hb
        have := hnone a ha
        simp only [Bool.and_eq_true, beq_iff_eq, not_and] at this
        exact fun hc => this hc.1 hc.2
    · simp [membershipStep, hfind]
      exact hinv

/-- Witness for `c5_membership_branch_idempotent`: a user with no membership
joining an organisation whose ADMIN role group exists gains exactly one
membership. -/
theorem c5_membership_branch_idempotent_witness :
    membershipStep
        ⟨[], [⟨"org1", "Biz", "yc-biz-1", [⟨"g1", Role.ADMIN⟩], []⟩], [], [], []⟩
        5 ⟨"org1", "Biz", "yc-biz-1", [⟨"g1", Role.ADMIN⟩], []⟩ Role.ADMIN
        "m1" "gm1"
      = ⟨[], [⟨"org1", "Biz", "yc-biz-1", [⟨"g1", Role.ADMIN⟩], []⟩],
         [⟨"m1", 5, "org1"⟩], [⟨"gm1", "g1"⟩], []⟩ := by
  have h := ((c5_membership_branch_idempotent
      ⟨[], [⟨"org1", "Biz", "yc-biz-1", [⟨"g1", Role.ADMIN⟩], []⟩], [], [], []⟩
      5 ⟨"org1", "Biz", "yc-biz-1", [⟨"g1", Role.ADMIN⟩], []⟩ Role.ADMIN
      "m1" "gm1").2.1 (by decide) ⟨"g1", Role.ADMIN⟩ (by decide))
  rw [h]
  rfl

/-- At most one `ApiToken` row with a given deterministic name per team. -/
def atMostOneCredentialPerTeamName (ts : List ApiToken) : Prop :=
  List.Pairwise (fun a b => ¬ (a.teamId = b.teamId ∧ a.name = b.name)) ts

/-- Claim C7: `createExternalTeamApiToken` is idempotent.  The credential name
is derived deterministically from the organisation id
(`yc-external-` followed by it); the team is checked for an existing
credential of that name before inserting; when one exists nothing is created
and `null` is returned, so the handlers' webhook guard stays false and the
partner webhook is not sent again; when none exists exactly one hashed
credential with that name is inserted; the store never grows by more than one
row, and the at-most-one-credential-per-(team, name) invariant is
preserved. -/
theorem c7_api_token_creation_idempotent (tokens : List ApiToken)
    (teamId : Nat) (organisationId : String) (userId : Nat)
    (randomBytes : List Nat) (hashString : String → String) :
    ((tokens.find? (fun t =>
          t.teamId == teamId && t.name == ("yc-external-" ++ organisationId))).isSome
        = true →
      createExternalTeamApiToken tokens teamId organisationId userId
          randomBytes hashString = (none, tokens) ∧
      apiTokenTriggersWebhook
        (createExternalTeamApiToken tokens teamId organisationId userId
          randomBytes hashString).1 = false) ∧
    (tokens.find? (fun t =>
          t.teamId == teamId && t.name == ("yc-external-" ++ organisationId))
        = none →
      createExternalTeamApiToken tokens teamId organisationId userId
          randomBytes hashString
        = (some ("api_" ++ bytesToHex randomBytes),
           tokens ++ [⟨"yc-external-" ++ organisationId,
                      hashString ("api_" ++ bytesToHex randomBytes), userId,
                      teamId⟩])) ∧
    (createExternalTeamApiToken tokens teamId organisationId userId randomBytes
        hashString).2.length ≤ tokens.length + 1 ∧
    (atMostOneCredentialPerTeamName tokens →
      atMostOneCredentialPerTeamName
        (createExternalTeamApiToken tokens teamId organisationId userId
          randomBytes hashString).2) := by
  refine ⟨?_, ?_, ?_, ?_⟩
  · intro hsome
    rcases hfind : tokens.find? (fun t =>
        t.teamId == teamId && t.name == ("yc-external-" ++ organisationId))
        with - | t
    · rw [hfind] at hsome
      cases hsome
    · constructor
      · simp [createExternalTeamApiToken, hfind]
      · simp [createExternalTeamApiToken, hfind, apiTokenTriggersWebhook]
  · intro hfind
    simp [createExternalTeamApiToken, hfind]
  · rcases hfind : tokens.find? (fun t =>
        t.teamId == teamId && t.name == ("yc-external-" ++ organisationId))
        with - | t
    · simp [createExternalTeamApiToken, hfind]
    · simp [createExternalTeamApiToken, hfind]
  · intro hinv
    rcases hfind : tokens.find? (fun t =>
        t.teamId == teamId && t.name == ("yc-external-" ++ organisationId))
        with - | t
    · simp only [createExternalTeamApiToken, hfind]
      have hnone := List.find?_eq_none.mp hfind
      rw [atMostOneCredentialPerTeamName, List.pairwise_append]
      refine ⟨hinv, List.pairwise_singleton _ _, ?_⟩
      intro a ha b hb
      simp only [List.mem_singleton] at hb
      subst hb
      have := hnone a ha
      simp only [Bool.and_eq_true, beq_iff_eq, not_and] at this
      exact fun hc => this hc.1 hc.2
    · simp only [createExternalTeamApiToken, hfind]
      exact hinv

/-- Witness for `c7_api_token_creation_idempotent`: a team already holding the
deterministically named credential gets nothing new and no webhook. -/
theorem c7_api_token_creation_idempotent_witness :
    createExternalTeamApiToken [⟨"yc-external-org1", "h", 1, 7⟩] 7 "org1" 1 [0]
        (fun s => s)
      = (none, [⟨"yc-external-org1", "h", 1, 7⟩]) ∧
    apiTokenTriggersWebhook
      (createExternalTeamApiToken [⟨"yc-external-org1", "h", 1, 7⟩] 7 "org1" 1
        [0] (fun s => s)).1 = false :=
  (c7_api_token_creation_idempotent [⟨"yc-external-org1", "h", 1, 7⟩] 7 "org1"
    1 [0] (fun s => s)).1 (by decide)

/-- Claim C6 counterexample: the signature header of the partner webhook is
named `x-documenso-signature`, not `x-signature` as the claim states, and the
request path nests under `/v1/documenso/pms/store-api-key/`, not directly
under `/store-api-key/`. -/
theorem c6_webhook_header_counterexample :
    (sendApiTokenToPms "https://pms.example" "s" (fun _ _ => "sig") "biz_1"
        "api_xyz").map WebhookRequest.headerName
      = some "x-documenso-signature" ∧
    some "x-documenso-signature" ≠ some "x-signature" ∧
    (sendApiTokenToPms "https://pms.example" "s" (fun _ _ => "sig") "biz_1"
        "api_xyz").map WebhookRequest.url
      = some "https://pms.example/v1/documenso/pms/store-api-key/biz_1" := by
  decide

/-- Claim C6 as amended: for every newly minted per-tenant API token the
Partner Notifier issues
`POST (webhookBase)/v1/documenso/pms/store-api-key/(businessId)` whose body is
the serialized JSON object of businessId and apiToken, carrying a header named
`x-documenso-signature` whose value is the HMAC-SHA256 (hex) of the exact
serialized body under the configured secret (the HMAC primitive itself is the
external crypto library, abstracted as `hmac`); delivery is skipped entirely
when the webhook base URL or the secret is unconfigured; and the delivery
outcome never affects the HTTP response or resulting token-store state of the
exchanging caller. -/
theorem c6_webhook_request_shape (webhookUrl webhookSecret : String)
    (hmac : String → String → String) (businessId apiToken : String)
    (hu : webhookUrl ≠ "") (hs : webhookSecret ≠ "") :
    sendApiTokenToPms webhookUrl webhookSecret hmac businessId apiToken
      = some
          { url := webhookUrl ++ "/v1/documenso/pms/store-api-key/"
              ++ businessId,
            headerName := "x-documenso-signature",
            signature := hmac webhookSecret (pmsPayload businessId apiToken),
            body := pmsPayload businessId apiToken } ∧
    (∀ s h b a, sendApiTokenToPms "" s h b a = none) ∧
    (∀ u h b a, sendApiTokenToPms u "" h b a = none) ∧
    (∀ (store : Store) (token : String) (now : Nat)
        (provision : TokenData → Except String ProvisionOutcome),
      exchangeTokenFull store token now provision true
        = exchangeTokenFull store token now provision false) ∧
    pmsPayload "biz_1" "api_xyz"
      = "\x7b\"businessId\":\"biz_1\",\"apiToken\":\"api_xyz\"\x7d" := by
  refine ⟨?_, ?_, ?_, ?_, by decide⟩
  · simp [sendApiTokenToPms, hu, hs]
  · intro s h b a
    simp [sendApiTokenToPms]
  · intro u h b a
    simp [sendApiTokenToPms]
  · intro store token now provision
    rfl

/-- Witness for `c6_webhook_request_shape` with a concrete configuration and
an HMAC primitive that returns its message. -/
theorem c6_webhook_request_shape_witness :
    sendApiTokenToPms "https://pms.example" "s" (fun _ p => p) "biz_1"
        "api_xyz"
      = some
          { url := "https://pms.example/v1/documenso/pms/store-api-key/biz_1",
            headerName := "x-documenso-signature",
            signature := "\x7b\"businessId\":\"biz_1\",\"apiToken\":\"api_xyz\"\x7d",
            body := "\x7b\"businessId\":\"biz_1\",\"apiToken\":\"api_xyz\"\x7d" } := by
  have h := (c6_webhook_request_shape "https://pms.example" "s" (fun _ p => p)
    "biz_1" "api_xyz" (by decide) (by decide)).1
  rw [h]
  decide
